import Mathlib

/-!
Shallow embedding of the analytics controller of the `vnx-notebook-backend`
service (`controllers/analyticsController.js`): event ingestion (`trackEvent`)
and the three aggregation endpoints (`getAnalyticsSummary`, `getPopularTags`,
`getUsageStats`).

Modelling conventions:
* Timestamps are epoch milliseconds as `Nat` (`new Date().toISOString()` /
  `Date.getTime()`); day subtraction (`setDate(getDate() - days)` and the
  explicit `7 * 24 * 60 * 60 * 1000` arithmetic) is modelled as subtraction of
  a fixed-length day in milliseconds, and the local calendar-day and
  local-hour bucketing (`toDateString`, `getHours`) as `t / msPerDay` and
  `t / msPerHour % 24` (the model's local offset is zero).
* JavaScript `undefined` is `Option.none`; the truthiness of `a || b` on
  strings (where `""` is falsy) is `jsOrStr` / `jsOrOptStr`.
* A JavaScript object used as a counter (`obj[k] = (obj[k] || 0) + 1`) is an
  insertion-ordered association list, updated by `bump`.
* The storage collaborator (supabase) is modelled by its contract (spec §6):
  a query returns either a fault or the table rows with the requested
  equality/lower-bound filters applied and, where requested, sorted
  descending by `created_at`; an insert either succeeds, reports an error
  object, or throws.
-/

set_option autoImplicit false

namespace Analytics

/-- One day in milliseconds (`24 * 60 * 60 * 1000`). -/
def msPerDay : Nat := 86400000

/-- One hour in milliseconds. -/
def msPerHour : Nat := 3600000

/-- Calendar-day bucket of a timestamp; models `new Date(t).toDateString()`
at day granularity. -/
def dayKey (t : Nat) : Nat := t / msPerDay

/-- Hour-of-day (0–23) of a timestamp; models `new Date(t).getHours()`. -/
def hourOf (t : Nat) : Nat := t / msPerHour % 24

/-- JavaScript `a || b` for an optional string against a string default:
`undefined` and the empty string are falsy. -/
def jsOrStr (a : Option String) (b : String) : String :=
  match a with
  | none => b
  | some s => if s = "" then b else s

/-- JavaScript `a || b` for two optional strings. -/
def jsOrOptStr (a b : Option String) : Option String :=
  match a with
  | none => b
  | some s => if s = "" then b else some s

/-- `obj[k] = (obj[k] || 0) + 1` on an insertion-ordered counter object. -/
def bump {κ : Type} [DecidableEq κ] (m : List (κ × Nat)) (k : κ) : List (κ × Nat) :=
  match m with
  | [] => [(k, 1)]
  | (k', v) :: rest => if k' = k then (k', v + 1) :: rest else (k', v) :: bump rest k

/-- `obj[k] || 0` on a counter object. -/
def lookupD {κ : Type} [DecidableEq κ] (m : List (κ × Nat)) (k : κ) : Nat :=
  match m with
  | [] => 0
  | (k', v) :: rest => if k' = k then v else lookupD rest k

/-- Sum of the counts stored in a counter object. -/
def sumVals {κ : Type} (m : List (κ × Nat)) : Nat :=
  (m.map Prod.snd).sum

/-- Keys of a counter object, in insertion order. -/
def keysOf {κ : Type} (m : List (κ × Nat)) : List κ :=
  m.map Prod.fst

/-- Stable insertion (descending by `key`): the new element goes before the
first element whose key is not larger. -/
def insertDescBy {α : Type} (key : α → Nat) (x : α) : List α → List α
  | [] => [x]
  | y :: ys => if key x < key y then y :: insertDescBy key x ys else x :: y :: ys

/-- Stable sort, descending by `key`; models both the storage collaborator's
`order('created_at', { ascending: false })` and the stable
`Array.prototype.sort(([,a],[,b]) => b - a)` over counter entries. -/
def sortDescBy {α : Type} (key : α → Nat) : List α → List α
  | [] => []
  | x :: xs => insertDescBy key x (sortDescBy key xs)

/-- The closed enumeration of valid `event_type` values (`eventSchema`). -/
def validEventTypes : List String :=
  ["note_created", "note_updated", "note_deleted", "note_viewed",
   "voice_input_used", "export_note", "share_note", "search_performed",
   "language_changed", "page_view", "user_signup", "user_signin"]

/-- The `location` object of `eventSchema`: each of the three keys is
optional and may be the empty string (`Joi.string().allow('')`). -/
structure Location where
  country : Option String
  city : Option String
  timezone : Option String
  deriving Repr, DecidableEq

/-- A request body for `POST /api/analytics/track`. `event_data` is an
opaque string-keyed object, never inspected by the controller. -/
structure Payload where
  event_type : Option String
  event_data : Option (List (String × String))
  user_id : Option String
  session_id : Option String
  user_agent : Option String
  ip_address : Option String
  location : Option Location
  deriving Repr, DecidableEq

/-- The request context the controller reads from: `req.get('User-Agent')`,
`req.ip`, `req.connection.remoteAddress`. Each is best-effort and may be
absent. -/
structure ReqCtx where
  userAgent : Option String
  ip : Option String
  remoteAddress : Option String
  deriving Repr, DecidableEq

/-- Values generated during ingestion: the two `uuidv4()` calls and the
`new Date()` timestamp. -/
structure Gen where
  newId : String
  newSessionId : String
  now : Nat
  deriving Repr, DecidableEq

/-- `eventSchema.validate(req.body)`: `event_type` is required and must be
one of `validEventTypes`; the optional string fields reject the empty
string (Joi default, no `.allow('')` on them); `event_data` and `location`
accept any well-typed value. Returns the first error message
(`validationError.details[0].message`), or `none` on success. -/
def validateEvent (p : Payload) : Option String :=
  match p.event_type with
  | none => some "event_type is required"
  | some t =>
    if t ∈ validEventTypes then
      if p.user_id = some "" then some "user_id is not allowed to be empty"
      else if p.session_id = some "" then some "session_id is not allowed to be empty"
      else if p.user_agent = some "" then some "user_agent is not allowed to be empty"
      else if p.ip_address = some "" then some "ip_address is not allowed to be empty"
      else none
    else some "event_type must be one of the allowed values"

/-- A normalized analytics event as built by `trackEvent` (lines 38–48) and
written to the analytics table. `user_agent` and `ip_address` stay optional:
the code falls back to request-context values that may themselves be
absent. -/
structure StoredEvent where
  id : String
  event_type : String
  event_data : List (String × String)
  user_id : String
  session_id : String
  user_agent : Option String
  ip_address : Option String
  location : Location
  created_at : Nat
  deriving Repr, DecidableEq

/-- The `eventData` record `trackEvent` constructs from a validated payload
(so `event_type` is the payload's value; `getD ""` only extracts it). -/
def buildEvent (p : Payload) (ctx : ReqCtx) (g : Gen) : StoredEvent :=
  { id := g.newId
    event_type := p.event_type.getD ""
    event_data := p.event_data.getD []
    user_id := jsOrStr p.user_id "anonymous"
    session_id := jsOrStr p.session_id g.newSessionId
    user_agent := jsOrOptStr p.user_agent ctx.userAgent
    ip_address := jsOrOptStr p.ip_address (jsOrOptStr ctx.ip ctx.remoteAddress)
    location := p.location.getD ⟨some "", some "", some ""⟩
    created_at := g.now }

/-- Outcome of the durable insert: success, a supabase error object, or a
thrown exception (caught by the surrounding `try`/`catch`). -/
inductive WriteOutcome where
  | ok
  | dbError (msg : String)
  | thrown (msg : String)
  deriving Repr, DecidableEq

/-- The JSON response of `POST /api/analytics/track` together with its HTTP
status (`res.json` without `res.status` is status 200). -/
structure TrackResponse where
  status : Nat
  success : Bool
  data : Option StoredEvent
  message : Option String
  warning : Option String
  error : Option String
  details : Option String
  deriving Repr, DecidableEq

/-- `analyticsController.trackEvent`. Returns the response and the list of
records durably written to the analytics table (empty when validation fails
or the write could not be confirmed). -/
def trackEvent (p : Payload) (ctx : ReqCtx) (g : Gen) (w : WriteOutcome) :
    TrackResponse × List StoredEvent :=
  match validateEvent p with
  | some msg =>
    ({ status := 400, success := false, data := none, message := none,
       warning := none, error := some "Validation failed", details := some msg }, [])
  | none =>
    let ev := buildEvent p ctx g
    match w with
    | .ok =>
      ({ status := 200, success := true, data := some ev,
         message := some "Event tracked successfully", warning := none,
         error := none, details := none }, [ev])
    | .dbError _ =>
      ({ status := 200, success := true, data := none,
         message := some "Event logged (with warnings)",
         warning := some "Analytics data may not have been stored",
         error := none, details := none }, [])
    | .thrown _ =>
      ({ status := 200, success := true, data := none,
         message := some "Event processing completed",
         warning := some "Analytics tracking may have failed",
         error := none, details := none }, [])

/-- The owner-scope test shared by the three aggregation endpoints:
`if (user_id && user_id !== 'anonymous') query = query.eq('user_id', ...)`.
Returns whether a row with owner `u` passes the (possibly absent) filter. -/
def ownerFilter (uid : Option String) (u : String) : Bool :=
  match uid with
  | none => true
  | some s => if s = "" ∨ s = "anonymous" then true else u = s

/-- A row of the analytics table as selected by the summary query
(`select('event_type, created_at, event_data')`). -/
structure EventRow where
  event_type : String
  created_at : Nat
  event_data : List (String × String)
  deriving Repr, DecidableEq

/-- Projection of a stored event to the selected summary columns. -/
def projEvent (e : StoredEvent) : EventRow :=
  { event_type := e.event_type, created_at := e.created_at,
    event_data := e.event_data }

/-- The storage collaborator evaluating the summary query over the analytics
table: lower bound `created_at >= start`, optional owner equality filter,
descending order by `created_at`, projection to the selected columns
(spec §6 contract). -/
def summaryQuery (table : List StoredEvent) (uid : Option String) (start : Nat) :
    List EventRow :=
  (sortDescBy (fun e => e.created_at)
    (table.filter (fun e => start ≤ e.created_at && ownerFilter uid e.user_id))).map
    projEvent

/-- The `summary` object of `getAnalyticsSummary` (lines 107–121). -/
structure Summary where
  total_events : Nat
  events_by_type : List (String × Nat)
  daily_activity : List (Nat × Nat)
  recent_events : List EventRow
  deriving Repr, DecidableEq

/-- Folds the fetched rows into the summary: length, per-type counts,
per-day counts, first ten rows. -/
def computeSummary (rows : List EventRow) : Summary :=
  { total_events := rows.length
    events_by_type := rows.foldl (fun m e => bump m e.event_type) []
    daily_activity := rows.foldl (fun m e => bump m (dayKey e.created_at)) []
    recent_events := rows.take 10 }

/-- The JSON response of `GET /api/analytics/summary` with its HTTP status. -/
structure SummaryResponse where
  status : Nat
  success : Bool
  data : Option Summary
  period : Option String
  user_id : Option String
  error : Option String
  details : Option String
  deriving Repr, DecidableEq

/-- `analyticsController.getAnalyticsSummary`: `days` defaults to 30 at the
call site; `db` is the outcome of the awaited storage query over the
analytics table. -/
def getAnalyticsSummary (uid : Option String) (days : Nat) (now : Nat)
    (db : Except String (List StoredEvent)) : SummaryResponse :=
  match db with
  | .error e =>
    { status := 500, success := false, data := none, period := none,
      user_id := none, error := some "Failed to fetch analytics summary",
      details := some e }
  | .ok table =>
    let startDate := now - days * msPerDay
    let rows := summaryQuery table uid startDate
    { status := 200, success := true, data := some (computeSummary rows),
      period := some (toString days ++ " days"),
      user_id := some (jsOrStr uid "all_users"), error := none, details := none }

/-- A row of the notes table with the columns the aggregation endpoints
read (`id, created_at, language, tags` plus the owner column). -/
structure Note where
  id : String
  user_id : String
  tags : Option String
  language : Option String
  created_at : Nat
  deriving Repr, DecidableEq

/-- Truthiness of a `tags` column value: non-null and non-empty. -/
def tagPresent : Option String → Bool
  | none => false
  | some s => s ≠ ""

/-- The storage collaborator evaluating the popular-tags query:
`.not('tags','is',null).not('tags','eq','')` plus the optional owner filter;
rows keep table order. -/
def tagsQuery (notes : List Note) (uid : Option String) : List Note :=
  notes.filter (fun n => tagPresent n.tags && ownerFilter uid n.user_id)

/-- JavaScript `String.prototype.split(',')` on the underlying character
list. -/
def splitCommaChars : List Char → List (List Char)
  | [] => [[]]
  | c :: cs =>
    match splitCommaChars cs with
    | [] => if c = ',' then [[], []] else [[c]]
    | p :: ps => if c = ',' then [] :: p :: ps else (c :: p) :: ps

/-- JavaScript `String.prototype.split(',')`. -/
def jsSplitComma (s : String) : List String :=
  (splitCommaChars s.data).map String.mk

/-- Whitespace as stripped by `String.prototype.trim()`. -/
def jsIsWs (c : Char) : Bool :=
  c = ' ' ∨ c = '\t' ∨ c = '\n' ∨ c = '\r'

/-- JavaScript `String.prototype.trim()`. -/
def jsTrim (s : String) : String :=
  String.mk (((s.data.dropWhile jsIsWs).reverse.dropWhile jsIsWs).reverse)

/-- JavaScript `String.prototype.toLowerCase()` (ASCII case folding). -/
def jsToLower (s : String) : String :=
  String.mk (s.data.map Char.toLower)

/-- `note.tags.split(',').map(tag => tag.trim().toLowerCase())`. -/
def noteTagList (s : String) : List String :=
  (jsSplitComma s).map (fun t => jsToLower (jsTrim t))

/-- One note's contribution to the tag counter: the `if (note.tags)` guard,
the split/trim/lower-case pipeline, and the `if (tag)` guard skipping empty
pieces. -/
def tallyNote (m : List (String × Nat)) (tags : Option String) :
    List (String × Nat) :=
  match tags with
  | none => m
  | some s =>
    if s = "" then m
    else (noteTagList s).foldl (fun acc t => if t = "" then acc else bump acc t) m

/-- The `tagCounts` object after the forEach over the fetched notes. -/
def tagCountsOf (rows : List Note) : List (String × Nat) :=
  rows.foldl (fun m n => tallyNote m n.tags) []

/-- The non-empty, trimmed, lower-cased tag occurrences of one `tags` value:
exactly the pieces that `tallyNote` counts. -/
def occOf (tags : Option String) : List String :=
  match tags with
  | none => []
  | some s => if s = "" then [] else (noteTagList s).filter (fun t => t ≠ "")

/-- The JSON response of `GET /api/analytics/tags` with its HTTP status;
`data` is the ranked `{tag, count}` sequence. -/
structure TagsResponse where
  status : Nat
  success : Bool
  data : Option (List (String × Nat))
  total_unique_tags : Option Nat
  error : Option String
  details : Option String
  deriving Repr, DecidableEq

/-- `analyticsController.getPopularTags`: `limit` defaults to 10 at the call
site; ranking is the stable descending sort by count followed by
`slice(0, limit)`; `total_unique_tags` is `Object.keys(tagCounts).length`. -/
def getPopularTags (uid : Option String) (limit : Nat)
    (db : Except String (List Note)) : TagsResponse :=
  match db with
  | .error e =>
    { status := 500, success := false, data := none, total_unique_tags := none,
      error := some "Failed to fetch popular tags", details := some e }
  | .ok notes =>
    let tagCounts := tagCountsOf (tagsQuery notes uid)
    { status := 200, success := true,
      data := some ((sortDescBy Prod.snd tagCounts).take limit),
      total_unique_tags := some tagCounts.length, error := none, details := none }

/-- The storage collaborator evaluating the usage-stats query: only the
optional owner filter; rows keep table order. -/
def statsQuery (notes : List Note) (uid : Option String) : List Note :=
  notes.filter (fun n => ownerFilter uid n.user_id)

/-- The `stats` object of `getUsageStats` (lines 215–241). -/
structure UsageStats where
  total_notes : Nat
  notes_this_week : Nat
  notes_this_month : Nat
  languages_used : List (String × Nat)
  creation_pattern : List (Nat × Nat)
  deriving Repr, DecidableEq

/-- Folds the fetched notes into the statistics: `weekAgo`/`monthAgo` are
`now` minus 7 resp. 30 fixed-length days; a missing or empty `language`
counts as `"plain"`; `creation_pattern` buckets by hour of day. -/
def computeStats (now : Nat) (rows : List Note) : UsageStats :=
  let weekAgo := now - 7 * msPerDay
  let monthAgo := now - 30 * msPerDay
  { total_notes := rows.length
    notes_this_week := rows.countP (fun n => weekAgo ≤ n.created_at)
    notes_this_month := rows.countP (fun n => monthAgo ≤ n.created_at)
    languages_used := rows.foldl (fun m n => bump m (jsOrStr n.language "plain")) []
    creation_pattern := rows.foldl (fun m n => bump m (hourOf n.created_at)) [] }

/-- The JSON response of `GET /api/analytics/stats` with its HTTP status. -/
structure StatsResponse where
  status : Nat
  success : Bool
  data : Option UsageStats
  user_id : Option String
  error : Option String
  details : Option String
  deriving Repr, DecidableEq

/-- `analyticsController.getUsageStats`. -/
def getUsageStats (uid : Option String) (now : Nat)
    (db : Except String (List Note)) : StatsResponse :=
  match db with
  | .error e =>
    { status := 500, success := false, data := none, user_id := none,
      error := some "Failed to fetch usage statistics", details := some e }
  | .ok notes =>
    let rows := statsQuery notes uid
    { status := 200, success := true, data := some (computeStats now rows),
      user_id := some (jsOrStr uid "all_users"), error := none, details := none }

/-- A minimal valid tracking payload used in concrete instances. -/
def samplePayload : Payload :=
  { event_type := some "page_view", event_data := none, user_id := none,
    session_id := none, user_agent := none, ip_address := none, location := none }

/-- A payload whose `event_type` is valid but whose `user_id` is the empty
string (rejected by `Joi.string()`). -/
def emptyUserPayload : Payload :=
  { samplePayload with user_id := some "" }

/-- A payload with no `event_type`. -/
def noTypePayload : Payload :=
  { samplePayload with event_type := none }

/-- A request context with provenance headers present. -/
def sampleCtx : ReqCtx :=
  { userAgent := some "UA/1.0", ip := some "10.0.0.1", remoteAddress := some "10.0.0.2" }

/-- A request context with no provenance information at all. -/
def bareCtx : ReqCtx :=
  { userAgent := none, ip := none, remoteAddress := none }

/-- Fixed generated values for concrete instances. -/
def sampleGen : Gen :=
  { newId := "id-1", newSessionId := "sess-1", now := 86400000000 }

/-- A reference "now" for the windowing examples: day 1000. -/
def T0 : Nat := 1000 * msPerDay

/-- An analytics-table row at a given owner and timestamp. -/
def mkEvent (u : String) (t : Nat) : StoredEvent :=
  { id := "e", event_type := "page_view", event_data := [], user_id := u,
    session_id := "s", user_agent := some "UA/1.0", ip_address := some "10.0.0.1",
    location := ⟨some "", some "", some ""⟩, created_at := t }

/-- Events at day offsets −40, −10 and −1 from `T0` (the spec's windowing
example), owned by two different users. -/
def windowEvents : List StoredEvent :=
  [mkEvent "alice" (T0 - 40 * msPerDay), mkEvent "alice" (T0 - 10 * msPerDay),
   mkEvent "bob" (T0 - 1 * msPerDay)]

/-- A notes-table row. -/
def mkNote (u : String) (tags lang : Option String) (t : Nat) : Note :=
  { id := "n", user_id := u, tags := tags, language := lang, created_at := t }

/-- The spec's tag-ranking example: notes tagged `"Go, go, rust"` and
`"rust"`. -/
def tagNotes : List Note :=
  [mkNote "alice" (some "Go, go, rust") none (T0 - 1 * msPerDay),
   mkNote "alice" (some "rust") (some "markdown") (T0 - 2 * msPerDay)]

theorem jsOrStr_eq_getD {a : Option String} (b : String) (h : a ≠ some "") :
    jsOrStr a b = a.getD b := by
  cases a with
  | none => rfl
  | some s =>
    have hs : s ≠ "" := fun he => h (by rw [he])
    simp [jsOrStr, hs]

theorem jsOrOptStr_eq_or {a : Option String} (b : Option String) (h : a ≠ some "") :
    jsOrOptStr a b = a.or b := by
  cases a with
  | none => rfl
  | some s =>
    have hs : s ≠ "" := fun he => h (by rw [he])
    simp [jsOrOptStr, hs]

theorem validateEvent_eq_none_iff (p : Payload) :
    validateEvent p = none ↔
      (∃ t, p.event_type = some t ∧ t ∈ validEventTypes) ∧
      p.user_id ≠ some "" ∧ p.session_id ≠ some "" ∧
      p.user_agent ≠ some "" ∧ p.ip_address ≠ some "" := by
  cases he : p.event_type with
  | none => simp [validateEvent, he]
  | some t =>
    simp only [validateEvent, he]
    split_ifs with h1 h2 h3 h4 h5 <;> simp_all

theorem lookupD_bump {κ : Type} [DecidableEq κ] (m : List (κ × Nat)) (k k' : κ) :
    lookupD (bump m k) k' = lookupD m k' + (if k = k' then 1 else 0) := by
  induction m with
  | nil => by_cases h : k = k' <;> simp [bump, lookupD, h]
  | cons hd tl ih =>
    obtain ⟨a, v⟩ := hd
    by_cases hak : a = k
    · subst hak
      by_cases hk' : a = k' <;> simp [bump, lookupD, hk']
    · by_cases hk' : a = k'
      · subst hk'
        have : ¬k = a := fun he => hak he.symm
        simp [bump, lookupD, hak, this]
      · simp [bump, lookupD, hak, hk', ih]

theorem sumVals_bump {κ : Type} [DecidableEq κ] (m : List (κ × Nat)) (k : κ) :
    sumVals (bump m k) = sumVals m + 1 := by
  induction m with
  | nil => simp [bump, sumVals]
  | cons hd tl ih =>
    obtain ⟨a, v⟩ := hd
    by_cases h : a = k <;> simp [bump, sumVals, h] at ih ⊢ <;> omega

theorem keysOf_bump {κ : Type} [DecidableEq κ] (m : List (κ × Nat)) (k : κ) :
    keysOf (bump m k) = if k ∈ keysOf m then keysOf m else keysOf m ++ [k] := by
  induction m with
  | nil => simp [bump, keysOf]
  | cons hd tl ih =>
    obtain ⟨a, v⟩ := hd
    by_cases hak : a = k
    · subst hak
      simp [bump, keysOf]
    · have hka : ¬k = a := fun he => hak he.symm
      simp only [keysOf, List.map_cons] at ih ⊢
      simp only [bump, if_neg hak, List.map_cons, List.mem_cons, hka, false_or]
      rw [ih]
      by_cases hm : k ∈ List.map Prod.fst tl <;> simp [hm]

theorem mem_keysOf_bump {κ : Type} [DecidableEq κ] (m : List (κ × Nat)) (k k' : κ) :
    k' ∈ keysOf (bump m k) ↔ k' ∈ keysOf m ∨ k' = k := by
  rw [keysOf_bump]
  split_ifs with hm
  · constructor
    · exact fun h => Or.inl h
    · rintro (h | rfl)
      · exact h
      · exact hm
  · simp

theorem nodup_keysOf_bump {κ : Type} [DecidableEq κ] {m : List (κ × Nat)} (k : κ)
    (h : (keysOf m).Nodup) : (keysOf (bump m k)).Nodup := by
  rw [keysOf_bump]
  split_ifs with hm
  · exact h
  · simp [List.nodup_append, h, hm]

theorem lookupD_foldl_bump {α κ : Type} [DecidableEq κ] (f : α → κ) (l : List α)
    (m0 : List (κ × Nat)) (k : κ) :
    lookupD (l.foldl (fun m x => bump m (f x)) m0) k
      = lookupD m0 k + l.countP (fun x => f x = k) := by
  induction l generalizing m0 with
  | nil => simp
  | cons x xs ih =>
    simp only [List.foldl_cons, List.countP_cons]
    rw [ih, lookupD_bump]
    by_cases h : f x = k <;> simp [h] <;> omega

theorem sumVals_foldl_bump {α κ : Type} [DecidableEq κ] (f : α → κ) (l : List α)
    (m0 : List (κ × Nat)) :
    sumVals (l.foldl (fun m x => bump m (f x)) m0) = sumVals m0 + l.length := by
  induction l generalizing m0 with
  | nil => simp
  | cons x xs ih =>
    simp only [List.foldl_cons, List.length_cons]
    rw [ih, sumVals_bump]
    omega

theorem nodup_keysOf_foldl_bump {α κ : Type} [DecidableEq κ] (f : α → κ) (l : List α)
    {m0 : List (κ × Nat)} (h : (keysOf m0).Nodup) :
    (keysOf (l.foldl (fun m x => bump m (f x)) m0)).Nodup := by
  induction l generalizing m0 with
  | nil => exact h
  | cons x xs ih => exact ih (nodup_keysOf_bump (f x) h)

theorem mem_keysOf_foldl_bump {α κ : Type} [DecidableEq κ] (f : α → κ) (l : List α)
    (m0 : List (κ × Nat)) (k : κ) :
    k ∈ keysOf (l.foldl (fun m x => bump m (f x)) m0) ↔
      k ∈ keysOf m0 ∨ k ∈ l.map f := by
  induction l generalizing m0 with
  | nil => simp
  | cons x xs ih =>
    simp only [List.foldl_cons, List.map_cons, List.mem_cons]
    rw [ih, mem_keysOf_bump]
    tauto

theorem lookupD_eq_of_mem {κ : Type} [DecidableEq κ] {m : List (κ × Nat)}
    (h : (keysOf m).Nodup) {t : κ} {c : Nat} (hm : (t, c) ∈ m) :
    lookupD m t = c := by
  induction m with
  | nil => cases hm
  | cons hd tl ih =>
    obtain ⟨a, v⟩ := hd
    rcases List.mem_cons.mp hm with heq | htl
    · injection heq with h1 h2
      subst h1
      subst h2
      simp [lookupD]
    · simp only [keysOf, List.map_cons, List.nodup_cons] at h
      have ha : ¬a = t := by
        intro he
        subst he
        exact h.1 (List.mem_map_of_mem Prod.fst htl)
      simp only [lookupD, if_neg ha]
      exact ih h.2 htl

theorem length_insertDescBy {α : Type} (key : α → Nat) (x : α) (l : List α) :
    (insertDescBy key x l).length = l.length + 1 := by
  induction l with
  | nil => rfl
  | cons y ys ih => by_cases h : key x < key y <;> simp [insertDescBy, h, ih]

theorem mem_insertDescBy {α : Type} (key : α → Nat) (x z : α) (l : List α) :
    z ∈ insertDescBy key x l ↔ z = x ∨ z ∈ l := by
  induction l with
  | nil => simp [insertDescBy]
  | cons y ys ih =>
    by_cases h : key x < key y <;> simp [insertDescBy, h, ih] <;> tauto

theorem length_sortDescBy {α : Type} (key : α → Nat) (l : List α) :
    (sortDescBy key l).length = l.length := by
  induction l with
  | nil => rfl
  | cons x xs ih => simp [sortDescBy, length_insertDescBy, ih]

theorem mem_sortDescBy {α : Type} (key : α → Nat) (z : α) (l : List α) :
    z ∈ sortDescBy key l ↔ z ∈ l := by
  induction l with
  | nil => simp [sortDescBy]
  | cons x xs ih => simp [sortDescBy, mem_insertDescBy, ih]

theorem sorted_insertDescBy {α : Type} (key : α → Nat) (x : α) {l : List α}
    (h : l.Pairwise (fun a b => key b ≤ key a)) :
    (insertDescBy key x l).Pairwise (fun a b => key b ≤ key a) := by
  induction l with
  | nil => simp [insertDescBy]
  | cons y ys ih =>
    rcases List.pairwise_cons.mp h with ⟨hy, hys⟩
    by_cases hk : key x < key y
    · simp only [insertDescBy, if_pos hk]
      refine List.pairwise_cons.mpr ⟨?_, ih hys⟩
      intro z hz
      rcases (mem_insertDescBy key x z ys).mp hz with rfl | hzys
      · exact Nat.le_of_lt hk
      · exact hy z hzys
    · simp only [insertDescBy, if_neg hk]
      refine List.pairwise_cons.mpr ⟨?_, h⟩
      intro z hz
      rcases List.mem_cons.mp hz with rfl | hzys
      · exact Nat.le_of_not_lt hk
      · exact le_trans (hy z hzys) (Nat.le_of_not_lt hk)

theorem sorted_sortDescBy {α : Type} (key : α → Nat) (l : List α) :
    (sortDescBy key l).Pairwise (fun a b => key b ≤ key a) := by
  induction l with
  | nil => simp [sortDescBy]
  | cons x xs ih => exact sorted_insertDescBy key x ih

/-- C1: once a payload passes `eventSchema` validation, `trackEvent`
responds with HTTP 200 and `success: true` for every write outcome — a
confirmed write, a reported storage error, or a thrown fault — never an
`error` field; an unconfirmed write is reported only through a non-fatal
`warning` string. -/
theorem trackEvent_success_after_validation (p : Payload) (ctx : ReqCtx) (g : Gen)
    (w : WriteOutcome) (h : validateEvent p = none) :
    (trackEvent p ctx g w).1.success = true ∧
    (trackEvent p ctx g w).1.status = 200 ∧
    (trackEvent p ctx g w).1.error = none ∧
    (w ≠ WriteOutcome.ok → (trackEvent p ctx g w).1.warning.isSome = true) := by
  cases w <;> simp [trackEvent, h]

/-- Witness for C1: a concrete valid payload whose durable write fails. -/
theorem trackEvent_success_after_validation_witness :
    (trackEvent samplePayload bareCtx sampleGen (.dbError "storage down")).1.success = true ∧
    (trackEvent samplePayload bareCtx sampleGen (.dbError "storage down")).1.status = 200 ∧
    (trackEvent samplePayload bareCtx sampleGen (.dbError "storage down")).1.error = none ∧
    (WriteOutcome.dbError "storage down" ≠ WriteOutcome.ok →
      (trackEvent samplePayload bareCtx sampleGen (.dbError "storage down")).1.warning.isSome = true) :=
  trackEvent_success_after_validation samplePayload bareCtx sampleGen _ (by decide)

/-- C2 counterexample: a payload whose `event_type` is the valid
`"page_view"` but whose optional `user_id` is the empty string is rejected
by `Joi.string()` with a 400 validation error, so acceptance is not
equivalent to `event_type` membership alone. -/
theorem trackEvent_not_iff_event_type_only :
    emptyUserPayload.event_type = some "page_view" ∧
    "page_view" ∈ validEventTypes ∧
    (trackEvent emptyUserPayload bareCtx sampleGen .ok).1.success = false ∧
    (trackEvent emptyUserPayload bareCtx sampleGen .ok).1.status = 400 := by
  decide

/-- C2 (amended): `trackEvent` returns `success: true` exactly when the
payload passes `eventSchema` — `event_type` present and in the closed
enumeration, and every optional string field, when present, non-empty; on
any validation failure it returns a 400 response naming the failing
constraint and writes no record. -/
theorem trackEvent_accepts_iff_schema_valid (p : Payload) (ctx : ReqCtx) (g : Gen)
    (w : WriteOutcome) :
    ((trackEvent p ctx g w).1.success = true ↔ validateEvent p = none) ∧
    (validateEvent p = none ↔
      ((∃ t, p.event_type = some t ∧ t ∈ validEventTypes) ∧
        p.user_id ≠ some "" ∧ p.session_id ≠ some "" ∧
        p.user_agent ≠ some "" ∧ p.ip_address ≠ some "")) ∧
    (∀ msg, validateEvent p = some msg →
      (trackEvent p ctx g w).1.status = 400 ∧
      (trackEvent p ctx g w).1.error = some "Validation failed" ∧
      (trackEvent p ctx g w).1.details = some msg ∧
      (trackEvent p ctx g w).2 = []) := by
  refine ⟨?_, validateEvent_eq_none_iff p, ?_⟩
  · cases hv : validateEvent p <;> cases w <;> simp [trackEvent, hv]
  · intro msg hm
    simp [trackEvent, hm]

/-- Witness for C2 at a payload with no `event_type`: rejected with 400 and
nothing written. -/
theorem trackEvent_accepts_iff_schema_valid_witness :
    (trackEvent noTypePayload bareCtx sampleGen .ok).1.status = 400 ∧
    (trackEvent noTypePayload bareCtx sampleGen .ok).1.error = some "Validation failed" ∧
    (trackEvent noTypePayload bareCtx sampleGen .ok).1.details = some "event_type is required" ∧
    (trackEvent noTypePayload bareCtx sampleGen .ok).2 = [] :=
  (trackEvent_accepts_iff_schema_valid noTypePayload bareCtx sampleGen .ok).2.2
    "event_type is required" (by decide)

/-- C5 counterexample: for a validated payload and a request context that
carry no provenance at all, the record written by a successful `trackEvent`
has absent (`undefined`) `user_agent` and `ip_address` fields, so not every
stored field is present. -/
theorem written_event_provenance_can_be_absent :
    (trackEvent samplePayload bareCtx sampleGen .ok).2.map
      (fun e => (e.user_agent, e.ip_address)) = [(none, none)] := by
  decide

/-- C5 (amended): every record `trackEvent` writes has its `event_type`
drawn from the closed enumeration, a generated `id` and ingestion
timestamp, `user_id` defaulting to `"anonymous"`, `event_data` to the empty
object, `session_id` to the generated identifier, `location` to the empty
triple, and `user_agent`/`ip_address` equal to the payload values when
supplied and otherwise to the request-context values, which may themselves
be absent. -/
theorem trackEvent_written_record_fields (p : Payload) (ctx : ReqCtx) (g : Gen)
    (w : WriteOutcome) (e : StoredEvent) (h : e ∈ (trackEvent p ctx g w).2) :
    p.event_type = some e.event_type ∧
    e.event_type ∈ validEventTypes ∧
    e.id = g.newId ∧
    e.created_at = g.now ∧
    e.user_id = p.user_id.getD "anonymous" ∧
    e.event_data = p.event_data.getD [] ∧
    e.session_id = p.session_id.getD g.newSessionId ∧
    e.location = p.location.getD ⟨some "", some "", some ""⟩ ∧
    e.user_agent = p.user_agent.or ctx.userAgent ∧
    e.ip_address = p.ip_address.or (jsOrOptStr ctx.ip ctx.remoteAddress) := by
  cases hv : validateEvent p with
  | some msg => simp [trackEvent, hv] at h
  | none =>
    obtain ⟨⟨t, ht, htmem⟩, hu, hs, hua, hip⟩ := (validateEvent_eq_none_iff p).mp hv
    cases w with
    | ok =>
      simp only [trackEvent, hv, List.mem_singleton] at h
      subst h
      refine ⟨?_, ?_, rfl, rfl, ?_, rfl, ?_, rfl, ?_, ?_⟩
      · simp [buildEvent, ht]
      · simp [buildEvent, ht, htmem]
      · simp [buildEvent, jsOrStr_eq_getD _ hu]
      · simp [buildEvent, jsOrStr_eq_getD _ hs]
      · simp [buildEvent, jsOrOptStr_eq_or _ hua]
      · simp [buildEvent, jsOrOptStr_eq_or _ hip]
    | dbError msg => simp [trackEvent, hv] at h
    | thrown msg => simp [trackEvent, hv] at h

/-- Witness for C5: the record written for a concrete valid payload with a
full request context has the default owner and an enumerated type. -/
theorem trackEvent_written_record_fields_witness :
    (buildEvent samplePayload sampleCtx sampleGen).user_id = "anonymous" ∧
    (buildEvent samplePayload sampleCtx sampleGen).event_type ∈ validEventTypes := by
  have h := trackEvent_written_record_fields samplePayload sampleCtx sampleGen .ok
    (buildEvent samplePayload sampleCtx sampleGen) (by decide)
  exact ⟨by rw [h.2.2.2.2.1]; rfl, h.2.1⟩

/-- C9: when the storage query faults, each of the three aggregation
endpoints responds HTTP 500 with `success: false`, its generic error
message and the underlying fault detail, and returns no data. -/
theorem aggregation_read_fault_is_server_error (uid : Option String)
    (days now limit : Nat) (e : String) :
    (getAnalyticsSummary uid days now (.error e)).status = 500 ∧
    (getAnalyticsSummary uid days now (.error e)).success = false ∧
    (getAnalyticsSummary uid days now (.error e)).error
      = some "Failed to fetch analytics summary" ∧
    (getAnalyticsSummary uid days now (.error e)).details = some e ∧
    (getAnalyticsSummary uid days now (.error e)).data = none ∧
    (getPopularTags uid limit (.error e)).status = 500 ∧
    (getPopularTags uid limit (.error e)).success = false ∧
    (getPopularTags uid limit (.error e)).error = some "Failed to fetch popular tags" ∧
    (getPopularTags uid limit (.error e)).details = some e ∧
    (getPopularTags uid limit (.error e)).data = none ∧
    (getUsageStats uid now (.error e)).status = 500 ∧
    (getUsageStats uid now (.error e)).success = false ∧
    (getUsageStats uid now (.error e)).error = some "Failed to fetch usage statistics" ∧
    (getUsageStats uid now (.error e)).details = some e ∧
    (getUsageStats uid now (.error e)).data = none :=
  ⟨rfl, rfl, rfl, rfl, rfl, rfl, rfl, rfl, rfl, rfl, rfl, rfl, rfl, rfl, rfl⟩

/-- C10: in every summary produced by `getAnalyticsSummary`, the counts in
`events_by_type` and the counts in `daily_activity` each sum to
`total_events`. -/
theorem summary_counts_partition_total (uid : Option String) (days now : Nat)
    (table : List StoredEvent) :
    (getAnalyticsSummary uid days now (.ok table)).data.map
        (fun s => sumVals s.events_by_type)
      = (getAnalyticsSummary uid days now (.ok table)).data.map Summary.total_events ∧
    (getAnalyticsSummary uid days now (.ok table)).data.map
        (fun s => sumVals s.daily_activity)
      = (getAnalyticsSummary uid days now (.ok table)).data.map Summary.total_events := by
  have h1 := sumVals_foldl_bump (fun e : EventRow => e.event_type)
    (summaryQuery table uid (now - days * msPerDay)) []
  have h2 := sumVals_foldl_bump (fun e : EventRow => dayKey e.created_at)
    (summaryQuery table uid (now - days * msPerDay)) []
  simp only [sumVals, List.map_nil, List.sum_nil, Nat.zero_add] at h1 h2
  simp [getAnalyticsSummary, computeSummary, sumVals, h1, h2]

theorem length_summaryQuery (table : List StoredEvent) (uid : Option String)
    (start : Nat) :
    (summaryQuery table uid start).length
      = table.countP (fun e => decide (start ≤ e.created_at) && ownerFilter uid e.user_id) := by
  simp [summaryQuery, length_sortDescBy, List.countP_eq_length_filter]

/-- C3: `total_events` counts exactly the stored events whose `created_at`
lies inside the window (`created_at ≥ now − days` fixed-length days), over
all users when no owner scope is given, and restricted to the owner's
events for a non-empty, non-anonymous owner. -/
theorem summary_total_events_window (days now : Nat) (table : List StoredEvent) :
    ((getAnalyticsSummary none days now (.ok table)).data.map Summary.total_events
      = some (table.countP (fun e => now - days * msPerDay ≤ e.created_at))) ∧
    (∀ u : String, u ≠ "" → u ≠ "anonymous" →
      (getAnalyticsSummary (some u) days now (.ok table)).data.map Summary.total_events
        = some (table.countP
            (fun e => (now - days * msPerDay ≤ e.created_at) ∧ e.user_id = u))) := by
  constructor
  · simp only [getAnalyticsSummary, computeSummary, length_summaryQuery]
    rw [Option.map_some', Option.some.injEq]
    apply List.countP_congr
    intro e _
    simp [ownerFilter]
  · intro u h1 h2
    simp only [getAnalyticsSummary, computeSummary, length_summaryQuery]
    rw [Option.map_some', Option.some.injEq]
    apply List.countP_congr
    intro e _
    simp [ownerFilter, h1, h2]

/-- Witness for C3 at the spec's windowing example: of the events at day
offsets −40, −10 and −1, the 30-day window scoped to `"alice"` counts only
the −10 event. -/
theorem summary_total_events_window_witness :
    (getAnalyticsSummary (some "alice") 30 T0 (.ok windowEvents)).data.map
        Summary.total_events = some 1 := by
  have h := (summary_total_events_window 30 T0 windowEvents).2 "alice"
    (by decide) (by decide)
  rw [h]
  decide

/-- C6: `recent_events` is the map-projection of the first ten elements of
the filtered event sequence ordered descending by `created_at`; it is
itself ordered newest-first and has `min 10 (number of filtered events)`
entries, so 10 entries whenever at least 10 events are in scope and all of
them otherwise. -/
theorem summary_recent_events_head (uid : Option String) (days now : Nat)
    (table : List StoredEvent) :
    ((getAnalyticsSummary uid days now (.ok table)).data.map Summary.recent_events
      = some ((List.take 10 (sortDescBy (fun e => e.created_at)
          (table.filter (fun e =>
            decide (now - days * msPerDay ≤ e.created_at) && ownerFilter uid e.user_id)))).map
          projEvent)) ∧
    (((List.take 10 (sortDescBy (fun e => e.created_at)
        (table.filter (fun e =>
          decide (now - days * msPerDay ≤ e.created_at) && ownerFilter uid e.user_id)))).map
        projEvent).Pairwise (fun a b => b.created_at ≤ a.created_at)) ∧
    (((List.take 10 (sortDescBy (fun e => e.created_at)
        (table.filter (fun e =>
          decide (now - days * msPerDay ≤ e.created_at) && ownerFilter uid e.user_id)))).map
        projEvent).length
      = min 10 (table.countP (fun e =>
          decide (now - days * msPerDay ≤ e.created_at) && ownerFilter uid e.user_id))) := by
  refine ⟨?_, ?_, ?_⟩
  · simp [getAnalyticsSummary, computeSummary, summaryQuery, List.map_take]
  · rw [List.pairwise_map]
    exact List.Pairwise.sublist (List.take_sublist _ _)
      (sorted_sortDescBy (fun e : StoredEvent => e.created_at)
        (table.filter (fun e =>
          decide (now - days * msPerDay ≤ e.created_at) && ownerFilter uid e.user_id)))
  · simp only [List.length_map, List.length_take, length_sortDescBy,
      List.countP_eq_length_filter]

/-- C7: over the scoped note set, `getUsageStats` reports the note count,
the counts of notes created within the last 7 and 30 fixed-length days,
the per-language counts with a missing or empty `language` counted as
`"plain"`, and the per-hour-of-day creation counts; and an empty note set
yields all-zero counts and empty mappings with a success response. -/
theorem usage_stats_spec (uid : Option String) (now : Nat) (notes : List Note) :
    ((getUsageStats uid now (.ok notes)).data.map UsageStats.total_notes
      = some (statsQuery notes uid).length) ∧
    ((getUsageStats uid now (.ok notes)).data.map UsageStats.notes_this_week
      = some ((statsQuery notes uid).countP
          (fun n => now - 7 * msPerDay ≤ n.created_at))) ∧
    ((getUsageStats uid now (.ok notes)).data.map UsageStats.notes_this_month
      = some ((statsQuery notes uid).countP
          (fun n => now - 30 * msPerDay ≤ n.created_at))) ∧
    (∀ lang : String,
      (getUsageStats uid now (.ok notes)).data.map
          (fun s => lookupD s.languages_used lang)
        = some ((statsQuery notes uid).countP
            (fun n => jsOrStr n.language "plain" = lang))) ∧
    (∀ h : Nat,
      (getUsageStats uid now (.ok notes)).data.map
          (fun s => lookupD s.creation_pattern h)
        = some ((statsQuery notes uid).countP
            (fun n => hourOf n.created_at = h))) ∧
    ((getUsageStats uid now (.ok [])).data
      = some { total_notes := 0, notes_this_week := 0, notes_this_month := 0,
               languages_used := [], creation_pattern := [] }) ∧
    (getUsageStats uid now (.ok [])).success = true ∧
    (getUsageStats uid now (.ok [])).status = 200 := by
  refine ⟨?_, ?_, ?_, ?_, ?_, ?_, ?_, ?_⟩
  · simp [getUsageStats, computeStats]
  · simp [getUsageStats, computeStats]
  · simp [getUsageStats, computeStats]
  · intro lang
    have h := lookupD_foldl_bump (fun n : Note => jsOrStr n.language "plain")
      (statsQuery notes uid) [] lang
    simp only [lookupD, Nat.zero_add] at h
    simp [getUsageStats, computeStats, h]
  · intro hr
    have h := lookupD_foldl_bump (fun n : Note => hourOf n.created_at)
      (statsQuery notes uid) [] hr
    simp only [lookupD, Nat.zero_add] at h
    simp [getUsageStats, computeStats, h]
  · simp [getUsageStats, computeStats, statsQuery]
  · simp [getUsageStats]
  · simp [getUsageStats]

theorem ownerFilter_trivial {uid : Option String}
    (h : uid = none ∨ uid = some "" ∨ uid = some "anonymous") (u : String) :
    ownerFilter uid u = true := by
  rcases h with rfl | rfl | rfl <;> simp [ownerFilter]

theorem ownerFilter_scoped {s : String} (h1 : s ≠ "") (h2 : s ≠ "anonymous")
    (u : String) : ownerFilter (some s) u = decide (u = s) := by
  simp [ownerFilter, h1, h2]

theorem summaryQuery_unscoped (table : List StoredEvent) {uid : Option String}
    (h : uid = none ∨ uid = some "" ∨ uid = some "anonymous") (start : Nat) :
    summaryQuery table uid start = summaryQuery table none start := by
  have hf : table.filter (fun e => decide (start ≤ e.created_at) && ownerFilter uid e.user_id)
      = table.filter (fun e => decide (start ≤ e.created_at) && ownerFilter none e.user_id) := by
    apply List.filter_congr
    intro e _
    rw [ownerFilter_trivial h]
    simp [ownerFilter]
  simp only [summaryQuery, hf]

theorem summaryQuery_scoped (table : List StoredEvent) {u : String}
    (h1 : u ≠ "") (h2 : u ≠ "anonymous") (start : Nat) :
    summaryQuery table (some u) start
      = summaryQuery (table.filter (fun e => e.user_id = u)) none start := by
  have hf : (table.filter (fun e => decide (e.user_id = u))).filter
        (fun e => decide (start ≤ e.created_at) && ownerFilter none e.user_id)
      = table.filter
          (fun e => decide (start ≤ e.created_at) && ownerFilter (some u) e.user_id) := by
    rw [List.filter_filter]
    apply List.filter_congr
    intro e _
    simp [ownerFilter, h1, h2]
  simp only [summaryQuery]
  rw [← hf]

theorem tagsQuery_unscoped (notes : List Note) {uid : Option String}
    (h : uid = none ∨ uid = some "" ∨ uid = some "anonymous") :
    tagsQuery notes uid = tagsQuery notes none := by
  apply List.filter_congr
  intro n _
  rw [ownerFilter_trivial h]
  simp [ownerFilter]

theorem tagsQuery_scoped (notes : List Note) {u : String} (h1 : u ≠ "")
    (h2 : u ≠ "anonymous") :
    tagsQuery notes (some u) = tagsQuery (notes.filter (fun n => n.user_id = u)) none := by
  unfold tagsQuery
  rw [List.filter_filter]
  apply List.filter_congr
  intro n _
  simp [ownerFilter, h1, h2]

theorem statsQuery_unscoped (notes : List Note) {uid : Option String}
    (h : uid = none ∨ uid = some "" ∨ uid = some "anonymous") :
    statsQuery notes uid = statsQuery notes none := by
  apply List.filter_congr
  intro n _
  rw [ownerFilter_trivial h]
  simp [ownerFilter]

theorem statsQuery_scoped (notes : List Note) {u : String} (h1 : u ≠ "")
    (h2 : u ≠ "anonymous") :
    statsQuery notes (some u) = statsQuery (notes.filter (fun n => n.user_id = u)) none := by
  unfold statsQuery
  rw [List.filter_filter]
  apply List.filter_congr
  intro n _
  simp [ownerFilter, h1, h2]

/-- C8 counterexample: the empty-string owner identifier — present, and
different from the `"anonymous"` sentinel — applies no owner filter: the
summary still counts the events of `"alice"` and `"bob"`, although no
stored event has `user_id = ""`. -/
theorem owner_scope_empty_string_counterexample :
    (some "" : Option String) ≠ none ∧
    (some "" : Option String) ≠ some "anonymous" ∧
    ((getAnalyticsSummary (some "") 30 T0 (.ok windowEvents)).data.map
        Summary.total_events = some 2) ∧
    windowEvents.countP (fun e => e.user_id = "") = 0 := by
  decide

/-- C8 (amended): for each aggregation endpoint, an owner identifier that
is absent, empty, or the `"anonymous"` sentinel applies no owner filter —
the aggregate equals the unscoped one — while any other value restricts the
aggregate to exactly the records whose `user_id` equals it. -/
theorem owner_scope_rule (days now limit : Nat) (uid : Option String)
    (events : List StoredEvent) (notes : List Note) :
    ((uid = none ∨ uid = some "" ∨ uid = some "anonymous") →
      ((getAnalyticsSummary uid days now (.ok events)).data
          = (getAnalyticsSummary none days now (.ok events)).data ∧
        (getPopularTags uid limit (.ok notes)).data
          = (getPopularTags none limit (.ok notes)).data ∧
        (getPopularTags uid limit (.ok notes)).total_unique_tags
          = (getPopularTags none limit (.ok notes)).total_unique_tags ∧
        (getUsageStats uid now (.ok notes)).data
          = (getUsageStats none now (.ok notes)).data)) ∧
    (∀ u : String, u ≠ "" → u ≠ "anonymous" →
      ((getAnalyticsSummary (some u) days now (.ok events)).data
          = (getAnalyticsSummary none days now
              (.ok (events.filter (fun e => e.user_id = u)))).data ∧
        (getPopularTags (some u) limit (.ok notes)).data
          = (getPopularTags none limit
              (.ok (notes.filter (fun n => n.user_id = u)))).data ∧
        (getPopularTags (some u) limit (.ok notes)).total_unique_tags
          = (getPopularTags none limit
              (.ok (notes.filter (fun n => n.user_id = u)))).total_unique_tags ∧
        (getUsageStats (some u) now (.ok notes)).data
          = (getUsageStats none now
              (.ok (notes.filter (fun n => n.user_id = u)))).data)) := by
  constructor
  · intro h
    refine ⟨?_, ?_, ?_, ?_⟩ <;>
      simp [getAnalyticsSummary, getPopularTags, getUsageStats,
        summaryQuery_unscoped events h, tagsQuery_unscoped notes h,
        statsQuery_unscoped notes h]
  · intro u h1 h2
    refine ⟨?_, ?_, ?_, ?_⟩ <;>
      simp [getAnalyticsSummary, getPopularTags, getUsageStats,
        summaryQuery_scoped events h1 h2, tagsQuery_scoped notes h1 h2,
        statsQuery_scoped notes h1 h2]

/-- Witness for C8: the `"anonymous"` sentinel leaves the usage statistics
unscoped, while the concrete owner `"alice"` restricts them to that
owner's notes. -/
theorem owner_scope_rule_witness :
    ((getUsageStats (some "anonymous") T0 (.ok tagNotes)).data
      = (getUsageStats none T0 (.ok tagNotes)).data) ∧
    ((getUsageStats (some "alice") T0 (.ok tagNotes)).data
      = (getUsageStats none T0
          (.ok (tagNotes.filter (fun n => n.user_id = "alice")))).data) :=
  ⟨((owner_scope_rule 30 T0 10 (some "anonymous") windowEvents tagNotes).1
      (Or.inr (Or.inr rfl))).2.2.2,
   ((owner_scope_rule 30 T0 10 (some "alice") windowEvents tagNotes).2 "alice"
      (by decide) (by decide)).2.2.2⟩

theorem foldl_bump_skip_empty (l : List String) (m : List (String × Nat)) :
    l.foldl (fun acc t => if t = "" then acc else bump acc t) m
      = (l.filter (fun t => t ≠ "")).foldl (fun acc t => bump acc t) m := by
  induction l generalizing m with
  | nil => rfl
  | cons x xs ih =>
    by_cases h : x = "" <;> simp [h, ih]

theorem tallyNote_eq (m : List (String × Nat)) (tags : Option String) :
    tallyNote m tags = (occOf tags).foldl (fun acc t => bump acc t) m := by
  cases tags with
  | none => rfl
  | some s =>
    by_cases h : s = "" <;> simp [tallyNote, occOf, h, foldl_bump_skip_empty]

theorem tagCountsOf_eq_flat (rows : List Note) (m : List (String × Nat)) :
    rows.foldl (fun m n => tallyNote m n.tags) m
      = (rows.flatMap (fun n => occOf n.tags)).foldl (fun acc t => bump acc t) m := by
  induction rows generalizing m with
  | nil => rfl
  | cons n ns ih =>
    simp only [List.foldl_cons, List.flatMap_cons, List.foldl_append]
    rw [tallyNote_eq, ih]

theorem lookupD_foldl_bump_id {κ : Type} [DecidableEq κ] (l : List κ)
    (m0 : List (κ × Nat)) (k : κ) :
    lookupD (l.foldl (fun acc t => bump acc t) m0) k
      = lookupD m0 k + l.countP (fun t => t = k) := by
  simpa using lookupD_foldl_bump (fun t => t) l m0 k

theorem nodup_keysOf_foldl_bump_id {κ : Type} [DecidableEq κ] (l : List κ)
    {m0 : List (κ × Nat)} (h : (keysOf m0).Nodup) :
    (keysOf (l.foldl (fun acc t => bump acc t) m0)).Nodup := by
  simpa using nodup_keysOf_foldl_bump (fun t => t) l h

theorem mem_keysOf_foldl_bump_id {κ : Type} [DecidableEq κ] (l : List κ)
    (m0 : List (κ × Nat)) (k : κ) :
    k ∈ keysOf (l.foldl (fun acc t => bump acc t) m0) ↔ k ∈ keysOf m0 ∨ k ∈ l := by
  simpa using mem_keysOf_foldl_bump (fun t => t) l m0 k

/-- C4: every `{tag, count}` pair returned by `getPopularTags` carries the
exact number of occurrences of its tag across the scoped notes' split,
trimmed, lower-cased tag lists (duplicates within one note's list each
counting); the ranking is sorted descending by count and truncated to
`limit`; `total_unique_tags` is the number of distinct tags observed before
truncation; and the spec's example notes `"Go, go, rust"` and `"rust"`
yield `go: 2, rust: 2`. -/
theorem popular_tags_spec (uid : Option String) (limit : Nat) (notes : List Note) :
    (∀ t c, (t, c) ∈ ((getPopularTags uid limit (.ok notes)).data.getD []) →
      c = ((tagsQuery notes uid).flatMap (fun n => occOf n.tags)).countP
            (fun x => x = t)) ∧
    (((getPopularTags uid limit (.ok notes)).data.getD []).Pairwise
      (fun a b => b.2 ≤ a.2)) ∧
    (((getPopularTags uid limit (.ok notes)).data.getD []).length
      = min limit (tagCountsOf (tagsQuery notes uid)).length) ∧
    ((getPopularTags uid limit (.ok notes)).total_unique_tags
      = some (((tagsQuery notes uid).flatMap (fun n => occOf n.tags)).toFinset.card)) ∧
    ((getPopularTags none 10 (.ok tagNotes)).data = some [("go", 2), ("rust", 2)]) ∧
    ((getPopularTags none 10 (.ok tagNotes)).total_unique_tags = some 2) := by
  have hdata : ((getPopularTags uid limit (.ok notes)).data.getD [])
      = (sortDescBy Prod.snd (tagCountsOf (tagsQuery notes uid))).take limit := by
    simp [getPopularTags]
  have hflat : tagCountsOf (tagsQuery notes uid)
      = ((tagsQuery notes uid).flatMap (fun n => occOf n.tags)).foldl
          (fun acc t => bump acc t) [] :=
    tagCountsOf_eq_flat _ _
  have hnodup : (keysOf (tagCountsOf (tagsQuery notes uid))).Nodup := by
    rw [hflat]
    exact nodup_keysOf_foldl_bump_id _ (by simp [keysOf])
  refine ⟨?_, ?_, ?_, ?_, by decide, by decide⟩
  · intro t c hm
    rw [hdata] at hm
    have h1 : (t, c) ∈ sortDescBy Prod.snd (tagCountsOf (tagsQuery notes uid)) :=
      (List.take_sublist _ _).subset hm
    have h2 : (t, c) ∈ tagCountsOf (tagsQuery notes uid) :=
      (mem_sortDescBy _ _ _).mp h1
    have h3 := lookupD_eq_of_mem hnodup h2
    rw [← h3, hflat, lookupD_foldl_bump_id]
    simp [lookupD]
  · rw [hdata]
    exact List.Pairwise.sublist (List.take_sublist _ _)
      (sorted_sortDescBy Prod.snd (tagCountsOf (tagsQuery notes uid)))
  · rw [hdata]
    simp [List.length_take, length_sortDescBy]
  · have hlen : (tagCountsOf (tagsQuery notes uid)).length
        = (keysOf (tagCountsOf (tagsQuery notes uid))).length := by
      simp [keysOf]
    have hfin : (keysOf (tagCountsOf (tagsQuery notes uid))).toFinset
        = ((tagsQuery notes uid).flatMap (fun n => occOf n.tags)).toFinset := by
      ext k
      rw [List.mem_toFinset, List.mem_toFinset, hflat, mem_keysOf_foldl_bump_id]
      simp [keysOf]
    simp only [getPopularTags]
    rw [hlen, ← List.toFinset_card_of_nodup hnodup, hfin]

/-- Witness for C4: the count reported for `"go"` in the example equals the
number of `"go"` occurrences over the processed tag lists. -/
theorem popular_tags_spec_witness :
    (2 : Nat) = ((tagsQuery tagNotes none).flatMap (fun n => occOf n.tags)).countP
        (fun x => x = "go") :=
  (popular_tags_spec none 10 tagNotes).1 "go" 2 (by decide)

end Analytics
